import Mathlib

/-!
Verification of the edit-request lifecycle manager and aspect-ratio
estimator of `src/bot.py` (a Telegram front end for the BFL.ai
image-editing API), as a shallow embedding in Lean 4.

The Python floats used by `get_aspect_ratio` are modelled by exact
rationals; every comparison the claims depend on is either between
numerically distinct values (where the IEEE-double and the rational
orderings agree, the gaps being many orders of magnitude larger than
the rounding error) or between `21/9` and `7/3`, which denote the same
real number and hence the same correctly-rounded double, so the tie
behaves identically in both models.
-/

namespace Bot

/-! ## Definitions: the aspect-ratio estimator (`get_aspect_ratio`) -/

/-- The gcd loop of `get_aspect_ratio` (`while b: a, b = b, a % b`). -/
def pyGcd (a b : Nat) : Nat :=
  if h : b = 0 then a else pyGcd b (a % b)
termination_by b
decreasing_by exact Nat.mod_lt _ (Nat.pos_of_ne_zero h)

/-- The `supported_ratios` table, in Python dict insertion order. -/
def supported_ratios : List (String × Nat × Nat) :=
  [("1:1", (1, 1)), ("4:3", (4, 3)), ("3:4", (3, 4)),
   ("16:9", (16, 9)), ("9:16", (9, 16)), ("21:9", (21, 9)),
   ("9:21", (9, 21)), ("3:2", (3, 2)), ("2:3", (2, 3)),
   ("7:3", (7, 3)), ("3:7", (3, 7))]

/-- One iteration of the closest-ratio loop of `get_aspect_ratio`: the
accumulator is `(closest_ratio, min_diff)`, with `none` standing for the
initial `float('inf')`; the accumulator is replaced only on a strictly
smaller difference (`diff < min_diff`), so the first of two equally
distant entries wins. -/
def closestStep (current : ℚ) (acc : String × Option ℚ)
    (e : String × Nat × Nat) : String × Option ℚ :=
  let diff := |current - (e.2.1 : ℚ) / (e.2.2 : ℚ)|
  match acc.2 with
  | none => (e.1, some diff)
  | some m => if diff < m then (e.1, some diff) else acc

/-- The closest-supported-ratio search of `get_aspect_ratio`, starting
from `closest_ratio = "1:1"`, `min_diff = float('inf')`. -/
def closestRatio (current : ℚ) : String :=
  (supported_ratios.foldl (closestStep current) ("1:1", none)).1

/-- `get_aspect_ratio`, at the level of the decoded image dimensions.
The two zero-divisor branches reproduce Python's `ZeroDivisionError`
paths (`width // 0` when both dimensions are zero, `ratio_width /
ratio_height` when the reduced height is zero), which the enclosing
`except` turns into the `"1:1"` fallback. -/
def get_aspect_ratio (width height : Nat) : String :=
  let g := pyGcd width height
  if g = 0 then "1:1"
  else
    let ratio_width := width / g
    let ratio_height := height / g
    if ratio_height = 0 then "1:1"
    else closestRatio ((ratio_width : ℚ) / (ratio_height : ℚ))

/-- The eleven enumerated ratio labels. -/
def ratioLabels : List String := supported_ratios.map Prod.fst

/-! ## Definitions: the lifecycle manager (`process_image_edit`)

The remote service is modelled by the data the code reads from it: the
submission response, one poll response per attempt, and whether the
artifact fetch of a given URL succeeds. A network exception anywhere
inside the `try` block lands in the single
`except requests.exceptions.RequestException` handler, modelled by the
`networkError` outcome. -/

/-- The fields `process_image_edit` reads from a poll response body:
`status`, `failure_reason`, and `result.sample` (the result reference).
`none` models an absent field. -/
structure PollData where
  status : Option String
  failure_reason : Option String
  resultSample : Option String
deriving DecidableEq

/-- One poll attempt as seen by the code: either a JSON body, or a
`RequestException` raised by `requests.get` / `raise_for_status`. -/
inductive PollResult where
  | ok (d : PollData)
  | netError
deriving DecidableEq

/-- The fields read from the submission response: `polling_url`, `id`. -/
structure SubmissionData where
  polling_url : Option String
  id : Option String
deriving DecidableEq

/-- The submission call: a JSON body, or a `RequestException`. -/
inductive SubmissionResult where
  | ok (d : SubmissionData)
  | netError
deriving DecidableEq

/-- The distinct terminal actions of `process_image_edit`, one per
`return` / handler path of the source:
* `delivered` — edited photo sent (line 132);
* `noPollingUrl` — "Could not get polling URL" (line 104);
* `noResultUrl` — "No edited image URL received" (line 146);
* `remoteFailed r` — "Image editing failed: r" (line 151);
* `timedOut` — the post-loop timeout message (line 164);
* `networkError` — the `RequestException` handler (line 171), shared by
  the submission call, every poll, and the artifact fetch. -/
inductive Outcome where
  | delivered
  | noPollingUrl
  | noResultUrl
  | remoteFailed (reason : String)
  | timedOut
  | networkError
deriving DecidableEq

/-- What one run of `process_image_edit` did: its terminal outcome, the
poll counts at which a progress notification was emitted (in order),
the number of poll requests issued, and the number of artifact-fetch
requests issued. -/
structure RunResult where
  outcome : Outcome
  progress : List Nat
  numPolls : Nat
  numFetches : Nat
deriving DecidableEq

/-- Python truthiness of an optional string (`if edited_image_url:`,
`if not polling_url:`): absent and empty are falsy. -/
def isTruthy : Option String → Bool
  | none => false
  | some s => s ≠ ""

/-- `max_polls = 60  # Maximum 2 minutes of polling`. -/
def max_polls : Nat := 60

/-- The polling loop (`while poll_count < max_polls`), with `remaining`
iterations left and `poll_count` polls already taken. Each iteration
sleeps, increments `poll_count`, issues one GET of the polling URL, and
dispatches on `status` exactly as lines 122-161 of the source do;
falling out of the loop yields the timeout message. -/
def pollLoop (polls : Nat → PollResult) (fetch : String → Bool) :
    Nat → Nat → RunResult
  | 0, _ => ⟨.timedOut, [], 0, 0⟩
  | remaining + 1, poll_count =>
    let pc := poll_count + 1
    match polls pc with
    | .netError => ⟨.networkError, [], 1, 0⟩
    | .ok d =>
      if d.status = some "Ready" then
        match d.resultSample with
        | some u =>
          if u ≠ "" then
            if fetch u then ⟨.delivered, [], 1, 1⟩
            else ⟨.networkError, [], 1, 1⟩
          else ⟨.noResultUrl, [], 1, 0⟩
        | none => ⟨.noResultUrl, [], 1, 0⟩
      else if d.status = some "Error" ∨ d.status = some "Failed" then
        ⟨.remoteFailed (d.failure_reason.getD "Unknown error"), [], 1, 0⟩
      else if d.status = some "Pending" then
        let rest := pollLoop polls fetch remaining pc
        if pc % 10 = 0 then
          ⟨rest.outcome, pc :: rest.progress, rest.numPolls + 1, rest.numFetches⟩
        else
          ⟨rest.outcome, rest.progress, rest.numPolls + 1, rest.numFetches⟩
      else
        let rest := pollLoop polls fetch remaining pc
        ⟨rest.outcome, rest.progress, rest.numPolls + 1, rest.numFetches⟩

/-- `process_image_edit`, from the submission call on: on a submission
exception the handler reports a network error; on a body without a
truthy `polling_url` it reports the missing-polling-URL error before
any poll; otherwise it runs the polling loop. -/
def process_image_edit (sub : SubmissionResult) (polls : Nat → PollResult)
    (fetch : String → Bool) : RunResult :=
  match sub with
  | .netError => ⟨.networkError, [], 0, 0⟩
  | .ok d =>
    if isTruthy d.polling_url then pollLoop polls fetch max_polls 0
    else ⟨.noPollingUrl, [], 0, 0⟩

/-- A `"Pending"` poll body with no other fields. -/
def pendingData : PollData := ⟨some "Pending", none, none⟩

/-- A `"Ready"` poll body carrying a result reference. -/
def readyData : PollData := ⟨some "Ready", none, some "https://result/img.jpg"⟩

/-- The poll counts in `(c, c+r]` at which a run of Pending responses
emits a progress notification: the multiples of 10. -/
def tens : Nat → Nat → List Nat
  | _, 0 => []
  | c, r + 1 =>
    if (c + 1) % 10 = 0 then (c + 1) :: tens (c + 1) r else tens (c + 1) r

/-! ## Definitions: concrete scenarios used as witnesses -/

/-- A successful submission body. -/
def subOkData : SubmissionData := ⟨some "https://api.bfl.ai/poll/1", some "req-1"⟩

/-- A successful submission. -/
def subOk : SubmissionResult := .ok subOkData

/-- A submission body whose `polling_url` field is absent. -/
def subNoUrlData : SubmissionData := ⟨none, some "req-1"⟩

/-- An artifact fetch that always succeeds. -/
def fetchAlways : String → Bool := fun _ => true

/-- An artifact fetch that always fails (raises). -/
def fetchNever : String → Bool := fun _ => false

/-- Pending responses up to attempt `k - 1`, Ready (with a valid result
reference) from attempt `k` on. -/
def pollsReadyAt (k : Nat) (n : Nat) : PollResult :=
  if n < k then .ok pendingData else .ok readyData

/-- Pending responses forever. -/
def pollsAllPending : Nat → PollResult := fun _ => .ok pendingData

/-- Every poll raises a network exception. -/
def pollsNetError : Nat → PollResult := fun _ => .netError

/-- Every poll reports `"Error"` with no `failure_reason` field. -/
def pollsErrorNoReason : Nat → PollResult := fun _ => .ok ⟨some "Error", none, none⟩

/-- Every poll reports `"Ready"` with the result-reference field absent. -/
def pollsReadyNoSample : Nat → PollResult := fun _ => .ok ⟨some "Ready", none, none⟩

/-- Every poll response has no `status` field at all. -/
def pollsNoStatus : Nat → PollResult := fun _ => .ok ⟨none, none, none⟩

/-- A run that attempted the artifact fetch and did not deliver: its
fetch failed. -/
def fetchFailedRun (res : RunResult) : Prop :=
  0 < res.numFetches ∧ res.outcome ≠ .delivered

/-- A run that failed in transport while polling: it ended in the
network-error handler after at least one poll, without any fetch. -/
def pollTransportRun (res : RunResult) : Prop :=
  res.outcome = .networkError ∧ res.numFetches = 0 ∧ 1 ≤ res.numPolls

end Bot

namespace Bot

/-! ## General lemmas -/

theorem pyGcd_eq_gcd (a b : Nat) : pyGcd a b = Nat.gcd a b := by
  induction b using Nat.strong_induction_on generalizing a with
  | _ b ih =>
    rw [pyGcd]
    by_cases h : b = 0
    · simp [h]
    · rw [dif_neg h, ih (a % b) (Nat.mod_lt _ (Nat.pos_of_ne_zero h)) b,
        Nat.gcd_comm b, ← Nat.gcd_rec, Nat.gcd_comm]

/-! Evaluation lemmas for single steps of the closest-ratio loop, with
the absolute value resolved to a concrete nonnegative difference `d`. -/

theorem stepStart (q d : ℚ) (s : String) (e : String × Nat × Nat)
    (h : q - (e.2.1 : ℚ) / (e.2.2 : ℚ) = d) (hd : 0 ≤ d) :
    closestStep q (s, none) e = (e.1, some d) := by
  simp only [closestStep, h, abs_of_nonneg hd]

theorem stepLt (q m d : ℚ) (s : String) (e : String × Nat × Nat)
    (h : q - (e.2.1 : ℚ) / (e.2.2 : ℚ) = d) (hd : 0 ≤ d) (hlt : d < m) :
    closestStep q (s, some m) e = (e.1, some d) := by
  simp only [closestStep, h, abs_of_nonneg hd, if_pos hlt]

theorem stepGe (q m d : ℚ) (s : String) (e : String × Nat × Nat)
    (h : q - (e.2.1 : ℚ) / (e.2.2 : ℚ) = d) (hd : 0 ≤ d) (hge : m ≤ d) :
    closestStep q (s, some m) e = (s, some m) := by
  simp only [closestStep, h, abs_of_nonneg hd, if_neg (not_lt.mpr hge)]

theorem stepGeRev (q m d : ℚ) (s : String) (e : String × Nat × Nat)
    (h : (e.2.1 : ℚ) / (e.2.2 : ℚ) - q = d) (hd : 0 ≤ d) (hge : m ≤ d) :
    closestStep q (s, some m) e = (s, some m) := by
  simp only [closestStep, abs_sub_comm q, h, abs_of_nonneg hd,
    if_neg (not_lt.mpr hge)]

/-- At `current = 1000` the estimator's loop ends on `"21:9"`: `21/9`
and `7/3` are equally distant and `"21:9"` is enumerated first. -/
theorem closestRatio_thousand : closestRatio 1000 = "21:9" := by
  rw [closestRatio, supported_ratios]
  rw [List.foldl_cons,
    stepStart 1000 999 "1:1" ("1:1", (1, 1)) (by norm_num) (by norm_num)]
  rw [List.foldl_cons,
    stepLt 1000 999 (2996/3) "1:1" ("4:3", (4, 3)) (by norm_num) (by norm_num) (by norm_num)]
  rw [List.foldl_cons,
    stepGe 1000 (2996/3) (3997/4) "4:3" ("3:4", (3, 4)) (by norm_num) (by norm_num) (by norm_num)]
  rw [List.foldl_cons,
    stepLt 1000 (2996/3) (8984/9) "4:3" ("16:9", (16, 9)) (by norm_num) (by norm_num) (by norm_num)]
  rw [List.foldl_cons,
    stepGe 1000 (8984/9) (15991/16) "16:9" ("9:16", (9, 16)) (by norm_num) (by norm_num) (by norm_num)]
  rw [List.foldl_cons,
    stepLt 1000 (8984/9) (2993/3) "16:9" ("21:9", (21, 9)) (by norm_num) (by norm_num) (by norm_num)]
  rw [List.foldl_cons,
    stepGe 1000 (2993/3) (6997/7) "21:9" ("9:21", (9, 21)) (by norm_num) (by norm_num) (by norm_num)]
  rw [List.foldl_cons,
    stepGe 1000 (2993/3) (1997/2) "21:9" ("3:2", (3, 2)) (by norm_num) (by norm_num) (by norm_num)]
  rw [List.foldl_cons,
    stepGe 1000 (2993/3) (2998/3) "21:9" ("2:3", (2, 3)) (by norm_num) (by norm_num) (by norm_num)]
  rw [List.foldl_cons,
    stepGe 1000 (2993/3) (2993/3) "21:9" ("7:3", (7, 3)) (by norm_num) (by norm_num) (by norm_num)]
  rw [List.foldl_cons,
    stepGe 1000 (2993/3) (6997/7) "21:9" ("3:7", (3, 7)) (by norm_num) (by norm_num) (by norm_num)]
  rw [List.foldl_nil]

/-- At `current = 1` the loop keeps the first entry `"1:1"` (difference
zero, and every later difference fails the strict comparison). -/
theorem closestRatio_one : closestRatio 1 = "1:1" := by
  rw [closestRatio, supported_ratios]
  rw [List.foldl_cons,
    stepStart 1 0 "1:1" ("1:1", (1, 1)) (by norm_num) (by norm_num)]
  rw [List.foldl_cons,
    stepGeRev 1 0 (1/3) "1:1" ("4:3", (4, 3)) (by norm_num) (by norm_num) (by norm_num)]
  rw [List.foldl_cons,
    stepGe 1 0 (1/4) "1:1" ("3:4", (3, 4)) (by norm_num) (by norm_num) (by norm_num)]
  rw [List.foldl_cons,
    stepGeRev 1 0 (7/9) "1:1" ("16:9", (16, 9)) (by norm_num) (by norm_num) (by norm_num)]
  rw [List.foldl_cons,
    stepGe 1 0 (7/16) "1:1" ("9:16", (9, 16)) (by norm_num) (by norm_num) (by norm_num)]
  rw [List.foldl_cons,
    stepGeRev 1 0 (4/3) "1:1" ("21:9", (21, 9)) (by norm_num) (by norm_num) (by norm_num)]
  rw [List.foldl_cons,
    stepGe 1 0 (4/7) "1:1" ("9:21", (9, 21)) (by norm_num) (by norm_num) (by norm_num)]
  rw [List.foldl_cons,
    stepGeRev 1 0 (1/2) "1:1" ("3:2", (3, 2)) (by norm_num) (by norm_num) (by norm_num)]
  rw [List.foldl_cons,
    stepGe 1 0 (1/3) "1:1" ("2:3", (2, 3)) (by norm_num) (by norm_num) (by norm_num)]
  rw [List.foldl_cons,
    stepGeRev 1 0 (4/3) "1:1" ("7:3", (7, 3)) (by norm_num) (by norm_num) (by norm_num)]
  rw [List.foldl_cons,
    stepGe 1 0 (4/7) "1:1" ("3:7", (3, 7)) (by norm_num) (by norm_num) (by norm_num)]
  rw [List.foldl_nil]

/-- Whatever `current` is, the loop's result is drawn from the initial
`"1:1"` or the table, hence always one of the eleven labels. -/
theorem closestRatio_mem (q : ℚ) : closestRatio q ∈ ratioLabels := by
  have key : ∀ (l : List (String × Nat × Nat)) (acc : String × Option ℚ),
      (l.foldl (closestStep q) acc).1 = acc.1 ∨
      (l.foldl (closestStep q) acc).1 ∈ l.map Prod.fst := by
    intro l
    induction l with
    | nil => intro acc; left; rfl
    | cons e t ih =>
      intro acc
      rw [List.foldl_cons]
      rcases ih (closestStep q acc e) with h | h
      · rw [h]
        rcases acc with ⟨s, mo⟩
        cases mo with
        | none => right; simp [closestStep]
        | some m =>
          by_cases hc : |q - (e.2.1 : ℚ) / (e.2.2 : ℚ)| < m
          · right; simp [closestStep, hc]
          · left; simp [closestStep, hc]
      · right
        rw [List.map_cons]
        exact List.mem_cons_of_mem _ h
  rcases key supported_ratios ("1:1", none) with h | h
  · rw [closestRatio, h]; decide
  · rw [closestRatio, ratioLabels]; exact h

/-- A loop fed only Pending responses times out after consuming all
remaining iterations, notifying at every 10th poll count. -/
theorem pollLoop_pending_run (polls : Nat → PollResult) (fetch : String → Bool) :
    ∀ r c,
    (∀ i, c < i → i ≤ c + r → ∃ d, polls i = .ok d ∧ d.status = some "Pending") →
    pollLoop polls fetch r c = ⟨.timedOut, tens c r, r, 0⟩
  | 0, c, _ => rfl
  | r + 1, c, hp => by
    obtain ⟨d, hpoll, hstat⟩ := hp (c + 1) (by omega) (by omega)
    have ih := pollLoop_pending_run polls fetch r (c + 1)
      (fun i h1 h2 => hp i (by omega) (by omega))
    by_cases h10 : (c + 1) % 10 = 0 <;>
      simp [pollLoop, hpoll, hstat, ih, tens, h10]

/-- Skipping a block of `k` Pending responses: the run is the run that
starts after them, with `k` more polls taken and the progress
notifications of the block prepended. -/
theorem pollLoop_skip_pendings (polls : Nat → PollResult) (fetch : String → Bool) :
    ∀ k r c, k ≤ r →
    (∀ i, c < i → i ≤ c + k → ∃ d, polls i = .ok d ∧ d.status = some "Pending") →
    pollLoop polls fetch r c =
      ⟨(pollLoop polls fetch (r - k) (c + k)).outcome,
       tens c k ++ (pollLoop polls fetch (r - k) (c + k)).progress,
       (pollLoop polls fetch (r - k) (c + k)).numPolls + k,
       (pollLoop polls fetch (r - k) (c + k)).numFetches⟩
  | 0, r, c, _, _ => by simp [tens]
  | k + 1, r, c, hkr, hp => by
    obtain ⟨r', rfl⟩ : ∃ r', r = r' + 1 := ⟨r - 1, by omega⟩
    obtain ⟨d, hpoll, hstat⟩ := hp (c + 1) (by omega) (by omega)
    have ih := pollLoop_skip_pendings polls fetch k r' (c + 1) (by omega)
      (fun i h1 h2 => hp i (by omega) (by omega))
    have hc : c + 1 + k = c + (k + 1) := by omega
    have hr : r' - k = r' + 1 - (k + 1) := by omega
    rw [hc, hr] at ih
    by_cases h10 : (c + 1) % 10 = 0 <;>
      simp [pollLoop, hpoll, hstat, ih, tens, h10, Nat.add_assoc]

/-- A loop fed only responses whose status is none of Ready, Error,
Failed, Pending silently consumes every iteration: it times out with no
progress notification at all. -/
theorem pollLoop_unknown_run (polls : Nat → PollResult) (fetch : String → Bool) :
    ∀ r c,
    (∀ i, c < i → i ≤ c + r → ∃ d, polls i = .ok d ∧
      d.status ≠ some "Ready" ∧ d.status ≠ some "Error" ∧
      d.status ≠ some "Failed" ∧ d.status ≠ some "Pending") →
    pollLoop polls fetch r c = ⟨.timedOut, [], r, 0⟩
  | 0, c, _ => rfl
  | r + 1, c, hp => by
    obtain ⟨d, hpoll, h1, h2, h3, h4⟩ := hp (c + 1) (by omega) (by omega)
    have ih := pollLoop_unknown_run polls fetch r (c + 1)
      (fun i hi1 hi2 => hp i (by omega) (by omega))
    simp [pollLoop, hpoll, h1, h2, h3, h4, ih]

/-- Any run of the loop either issued no artifact fetch, or ended with
the photo delivered, or ended in the shared network-error handler. -/
theorem pollLoop_fetch_outcome (polls : Nat → PollResult) (fetch : String → Bool) :
    ∀ r c, (pollLoop polls fetch r c).numFetches = 0 ∨
    (pollLoop polls fetch r c).outcome = .delivered ∨
    (pollLoop polls fetch r c).outcome = .networkError
  | 0, _ => by simp [pollLoop]
  | r + 1, c => by
    have ih := pollLoop_fetch_outcome polls fetch r (c + 1)
    cases hpl : polls (c + 1) with
    | netError => simp [pollLoop, hpl]
    | ok d =>
      by_cases hr2 : d.status = some "Ready"
      · cases hs : d.resultSample with
        | none => simp [pollLoop, hpl, hr2, hs]
        | some u =>
          by_cases hu : u = ""
          · simp [pollLoop, hpl, hr2, hs, hu]
          · by_cases hfe : fetch u <;> simp [pollLoop, hpl, hr2, hs, hu, hfe]
      · by_cases he : d.status = some "Error" ∨ d.status = some "Failed"
        · simp [pollLoop, hpl, hr2, he]
        · by_cases hpd : d.status = some "Pending"
          · by_cases h10 : (c + 1) % 10 = 0 <;>
              simpa [pollLoop, hpl, hr2, he, hpd, h10] using ih
          · simpa [pollLoop, hpl, hr2, he, hpd] using ih

/-- A run whose submission response has a truthy polling URL is exactly
the polling loop started at zero polls. -/
theorem process_truthy (subD : SubmissionData) (polls : Nat → PollResult)
    (fetch : String → Bool) (hsub : isTruthy subD.polling_url = true) :
    process_image_edit (.ok subD) polls fetch = pollLoop polls fetch 60 0 := by
  simp [process_image_edit, hsub, max_polls]

/-- Running the 60-attempt loop against `k - 1` leading Pendings and a
computed remainder. -/
theorem pollLoop_after_pendings (polls : Nat → PollResult) (fetch : String → Bool)
    (k : Nat) (hk1 : 1 ≤ k) (hk60 : k ≤ 60)
    (hpend : ∀ i, 1 ≤ i → i < k → ∃ d, polls i = .ok d ∧ d.status = some "Pending")
    (res : RunResult)
    (hres : pollLoop polls fetch (60 - (k - 1)) (k - 1) = res) :
    pollLoop polls fetch 60 0 =
      ⟨res.outcome, tens 0 (k - 1) ++ res.progress,
       res.numPolls + (k - 1), res.numFetches⟩ := by
  have hskip := pollLoop_skip_pendings polls fetch (k - 1) 60 0 (by omega)
    (fun i h1 h2 => hpend i (by omega) (by omega))
  rw [Nat.zero_add] at hskip
  rw [hskip, hres]

/-! ## Claims -/

/-- Claim C1, counterexample: with nine Pending responses followed by
Ready at attempt 10, the run sends no progress notification at all
(progress is emitted only inside the `elif status == "Pending"` branch,
and the 10th response is Ready, not Pending) — not exactly one. -/
theorem C1_counterexample :
    (process_image_edit subOk (pollsReadyAt 10) fetchAlways).progress = [] ∧
    (process_image_edit subOk (pollsReadyAt 10) fetchAlways).outcome = .delivered ∧
    (process_image_edit subOk (pollsReadyAt 10) fetchAlways).progress.length ≠ 1 := by
  decide

/-- Claim C1 as amended: with Pending×9 then Ready at attempt 10, zero
progress notifications are sent before delivery, and likewise with
Ready at attempt 9; a notification at attempt 10 occurs only when the
10th response is itself Pending, e.g. Pending×10 then Ready at attempt
11 notifies exactly once, at attempt 10. -/
theorem C1_theorem :
    ((process_image_edit subOk (pollsReadyAt 10) fetchAlways).progress = [] ∧
     (process_image_edit subOk (pollsReadyAt 10) fetchAlways).outcome = .delivered) ∧
    ((process_image_edit subOk (pollsReadyAt 9) fetchAlways).progress = [] ∧
     (process_image_edit subOk (pollsReadyAt 9) fetchAlways).outcome = .delivered) ∧
    ((process_image_edit subOk (pollsReadyAt 11) fetchAlways).progress = [10] ∧
     (process_image_edit subOk (pollsReadyAt 11) fetchAlways).outcome = .delivered) := by
  decide

/-- Claim C2, counterexample: an image of reduced ratio 1000:1 gets the
label `"21:9"`, not `"7:3"`: `21/9` and `7/3` are the same number, are
equally distant from 1000, and `"21:9"` is enumerated first, so under
first-match-wins tie-breaking `"7:3"` never replaces it. -/
theorem C2_counterexample :
    get_aspect_ratio 1000 1 = "21:9" ∧ get_aspect_ratio 1000 1 ≠ "7:3" := by
  have h : get_aspect_ratio 1000 1 = "21:9" := by
    simp only [get_aspect_ratio, pyGcd_eq_gcd, Nat.gcd_one_right, Nat.div_one]
    rw [if_neg (by omega), if_neg (by omega),
      show ((1000 : Nat) : ℚ) / ((1 : Nat) : ℚ) = 1000 by norm_num,
      closestRatio_thousand]
  exact ⟨h, by rw [h]; decide⟩

/-- Claim C2 as amended: for any image whose reduced width:height ratio
is 1000:1, the estimator returns `"21:9"` (numerically equal to 7:3 and
the closest enumerated extreme, winning the tie with `"7:3"` by
enumeration order). -/
theorem C2_theorem (k : Nat) (hk : 0 < k) :
    get_aspect_ratio (1000 * k) k = "21:9" := by
  have hg : Nat.gcd (1000 * k) k = k := by
    rw [Nat.gcd_comm]
    exact Nat.gcd_eq_left ⟨1000, mul_comm 1000 k⟩
  have hw : 1000 * k / k = 1000 := Nat.mul_div_cancel _ hk
  have hh : k / k = 1 := Nat.div_self hk
  simp only [get_aspect_ratio, pyGcd_eq_gcd, hg, hw, hh]
  rw [if_neg (by omega), if_neg (by omega),
    show ((1000 : Nat) : ℚ) / ((1 : Nat) : ℚ) = 1000 by norm_num,
    closestRatio_thousand]

/-- Witness for C2's amended theorem at `k = 1`. -/
theorem C2_witness : 0 < 1 ∧ get_aspect_ratio (1000 * 1) 1 = "21:9" :=
  ⟨by decide, C2_theorem 1 (by decide)⟩

/-- Claim C3: against 60 consecutive Pending responses (and any
submission response with a usable polling URL), the run times out and
issues exactly 60 polls — there is no 61st poll request. -/
theorem C3_theorem (subD : SubmissionData) (polls : Nat → PollResult)
    (fetch : String → Bool) (hsub : isTruthy subD.polling_url = true)
    (hp : ∀ n, 1 ≤ n → n ≤ 60 →
      ∃ d, polls n = .ok d ∧ d.status = some "Pending") :
    (process_image_edit (.ok subD) polls fetch).outcome = .timedOut ∧
    (process_image_edit (.ok subD) polls fetch).numPolls = 60 := by
  rw [process_truthy subD polls fetch hsub,
    pollLoop_pending_run polls fetch 60 0 (fun i h1 h2 => hp i (by omega) (by omega))]
  exact ⟨rfl, rfl⟩

/-- Witness for C3: the all-Pending poll sequence. -/
theorem C3_witness :
    isTruthy subOkData.polling_url = true ∧
    (process_image_edit (.ok subOkData) pollsAllPending fetchAlways).outcome = .timedOut ∧
    (process_image_edit (.ok subOkData) pollsAllPending fetchAlways).numPolls = 60 :=
  ⟨rfl, C3_theorem subOkData pollsAllPending fetchAlways rfl
    (fun n h1 h2 => ⟨pendingData, rfl, rfl⟩)⟩

/-- Claim C4: when the submission response has no `polling_url` field,
the outcome is the submission error and no poll request is ever issued
(the polling state is never entered). -/
theorem C4_theorem (polls : Nat → PollResult) (fetch : String → Bool)
    (subD : SubmissionData) (hsub : subD.polling_url = none) :
    (process_image_edit (.ok subD) polls fetch).outcome = .noPollingUrl ∧
    (process_image_edit (.ok subD) polls fetch).numPolls = 0 := by
  simp [process_image_edit, isTruthy, hsub]

/-- Witness for C4: a submission body carrying only an id. -/
theorem C4_witness :
    subNoUrlData.polling_url = none ∧
    (process_image_edit (.ok subNoUrlData) pollsAllPending fetchAlways).outcome
      = .noPollingUrl ∧
    (process_image_edit (.ok subNoUrlData) pollsAllPending fetchAlways).numPolls = 0 :=
  ⟨rfl, C4_theorem pollsAllPending fetchAlways subNoUrlData rfl⟩

/-- Claim C5: a Ready response with the result-reference field absent
(after any run of leading Pendings) ends the run with the
missing-result outcome — an anomaly path distinct from every
remote-reported failure — without crashing, without any artifact
fetch, and with no further polls. -/
theorem C5_theorem (subD : SubmissionData) (polls : Nat → PollResult)
    (fetch : String → Bool) (hsub : isTruthy subD.polling_url = true)
    (k : Nat) (hk1 : 1 ≤ k) (hk60 : k ≤ 60)
    (hpend : ∀ i, 1 ≤ i → i < k → ∃ d, polls i = .ok d ∧ d.status = some "Pending")
    (d : PollData) (hpoll : polls k = .ok d) (hstat : d.status = some "Ready")
    (hsam : d.resultSample = none) :
    (process_image_edit (.ok subD) polls fetch).outcome = .noResultUrl ∧
    (process_image_edit (.ok subD) polls fetch).numPolls = k ∧
    (process_image_edit (.ok subD) polls fetch).numFetches = 0 ∧
    ∀ s, Outcome.noResultUrl ≠ Outcome.remoteFailed s := by
  have hj : 60 - (k - 1) = (60 - k) + 1 := by omega
  have hpc : k - 1 + 1 = k := by omega
  have hres : pollLoop polls fetch (60 - (k - 1)) (k - 1) =
      ⟨.noResultUrl, [], 1, 0⟩ := by
    rw [hj]; simp [pollLoop, hpc, hpoll, hstat, hsam]
  rw [process_truthy subD polls fetch hsub,
    pollLoop_after_pendings polls fetch k hk1 hk60 hpend _ hres]
  exact ⟨rfl, show 1 + (k - 1) = k by omega, rfl, fun s => by simp⟩

/-- Witness for C5: Ready-with-no-reference at the very first poll. -/
theorem C5_witness :
    isTruthy subOkData.polling_url = true ∧
    ((process_image_edit (.ok subOkData) pollsReadyNoSample fetchAlways).outcome
        = .noResultUrl ∧
     (process_image_edit (.ok subOkData) pollsReadyNoSample fetchAlways).numPolls = 1 ∧
     (process_image_edit (.ok subOkData) pollsReadyNoSample fetchAlways).numFetches = 0 ∧
     ∀ s, Outcome.noResultUrl ≠ Outcome.remoteFailed s) :=
  ⟨rfl, C5_theorem subOkData pollsReadyNoSample fetchAlways rfl 1 (by decide) (by decide)
    (fun i h1 h2 => absurd h2 (by omega)) ⟨some "Ready", none, none⟩ rfl rfl rfl⟩

/-- Claim C6: an Error or Failed response (after any run of leading
Pendings) ends the run with the remote-failure outcome carrying the
remote-supplied `failure_reason`, defaulting to "Unknown error" when
that field is absent, and no further polls are issued. -/
theorem C6_theorem (subD : SubmissionData) (polls : Nat → PollResult)
    (fetch : String → Bool) (hsub : isTruthy subD.polling_url = true)
    (k : Nat) (hk1 : 1 ≤ k) (hk60 : k ≤ 60)
    (hpend : ∀ i, 1 ≤ i → i < k → ∃ d, polls i = .ok d ∧ d.status = some "Pending")
    (d : PollData) (hpoll : polls k = .ok d)
    (hstat : d.status = some "Error" ∨ d.status = some "Failed") :
    (process_image_edit (.ok subD) polls fetch).outcome
      = .remoteFailed (d.failure_reason.getD "Unknown error") ∧
    (process_image_edit (.ok subD) polls fetch).numPolls = k := by
  have hj : 60 - (k - 1) = (60 - k) + 1 := by omega
  have hpc : k - 1 + 1 = k := by omega
  have hres : pollLoop polls fetch (60 - (k - 1)) (k - 1) =
      ⟨.remoteFailed (d.failure_reason.getD "Unknown error"), [], 1, 0⟩ := by
    rw [hj]
    rcases hstat with h | h <;> simp [pollLoop, hpc, hpoll, h]
  rw [process_truthy subD polls fetch hsub,
    pollLoop_after_pendings polls fetch k hk1 hk60 hpend _ hres]
  exact ⟨rfl, show 1 + (k - 1) = k by omega⟩

/-- Witness for C6: Error at the first poll with no `failure_reason`,
reported as "Unknown error". -/
theorem C6_witness :
    isTruthy subOkData.polling_url = true ∧
    ((process_image_edit (.ok subOkData) pollsErrorNoReason fetchAlways).outcome
        = .remoteFailed "Unknown error" ∧
     (process_image_edit (.ok subOkData) pollsErrorNoReason fetchAlways).numPolls = 1) :=
  ⟨rfl, C6_theorem subOkData pollsErrorNoReason fetchAlways rfl 1 (by decide) (by decide)
    (fun i h1 h2 => absurd h2 (by omega)) ⟨some "Error", none, none⟩ rfl (Or.inl rfl)⟩

/-- Claim C7: a network exception at any poll (after any run of leading
Pendings) is not retried: the run ends in the transport-failure outcome
reported once, with no poll issued after the failing one. -/
theorem C7_theorem (subD : SubmissionData) (polls : Nat → PollResult)
    (fetch : String → Bool) (hsub : isTruthy subD.polling_url = true)
    (k : Nat) (hk1 : 1 ≤ k) (hk60 : k ≤ 60)
    (hpend : ∀ i, 1 ≤ i → i < k → ∃ d, polls i = .ok d ∧ d.status = some "Pending")
    (hpoll : polls k = .netError) :
    (process_image_edit (.ok subD) polls fetch).outcome = .networkError ∧
    (process_image_edit (.ok subD) polls fetch).numPolls = k := by
  have hj : 60 - (k - 1) = (60 - k) + 1 := by omega
  have hpc : k - 1 + 1 = k := by omega
  have hres : pollLoop polls fetch (60 - (k - 1)) (k - 1) =
      ⟨.networkError, [], 1, 0⟩ := by
    rw [hj]; simp [pollLoop, hpc, hpoll]
  rw [process_truthy subD polls fetch hsub,
    pollLoop_after_pendings polls fetch k hk1 hk60 hpend _ hres]
  exact ⟨rfl, show 1 + (k - 1) = k by omega⟩

/-- Witness for C7: the first poll raises. -/
theorem C7_witness :
    isTruthy subOkData.polling_url = true ∧
    ((process_image_edit (.ok subOkData) pollsNetError fetchAlways).outcome
        = .networkError ∧
     (process_image_edit (.ok subOkData) pollsNetError fetchAlways).numPolls = 1) :=
  ⟨rfl, C7_theorem subOkData pollsNetError fetchAlways rfl 1 (by decide) (by decide)
    (fun i h1 h2 => absurd h2 (by omega)) rfl⟩

/-- Claim C8, counterexample: there is no pair of runs, one failing at
the artifact fetch and one failing in transport during polling, whose
reported outcomes differ — both kinds of failure land in the same
`RequestException` handler and report the same network-error outcome. -/
theorem C8_counterexample :
    ¬ ∃ (sA : SubmissionResult) (pA : Nat → PollResult) (fA : String → Bool)
        (sB : SubmissionResult) (pB : Nat → PollResult) (fB : String → Bool),
      fetchFailedRun (process_image_edit sA pA fA) ∧
      pollTransportRun (process_image_edit sB pB fB) ∧
      (process_image_edit sA pA fA).outcome ≠ (process_image_edit sB pB fB).outcome := by
  rintro ⟨sA, pA, fA, sB, pB, fB, ⟨hfA, hndA⟩, ⟨hB, -, -⟩, hne⟩
  have hA : (process_image_edit sA pA fA).outcome = .networkError := by
    cases sA with
    | netError => simp [process_image_edit] at hfA
    | ok d =>
      by_cases hsub : isTruthy d.polling_url = true
      · rw [process_truthy d pA fA hsub] at hfA hndA ⊢
        rcases pollLoop_fetch_outcome pA fA 60 0 with h0 | hD | hN
        · exact absurd h0 (Nat.pos_iff_ne_zero.mp hfA)
        · exact absurd hD hndA
        · exact hN
      · simp [process_image_edit, hsub] at hfA
  exact hne (hA.trans hB.symm)

/-- Claim C8 as amended: a failed artifact fetch after Ready is
reported with the same network-error outcome as a transport failure
during polling (the code shares one handler for both), while remaining
distinct from the submission-error, missing-result, remote-failure and
timeout outcomes. -/
theorem C8_theorem :
    fetchFailedRun (process_image_edit subOk (pollsReadyAt 1) fetchNever) ∧
    pollTransportRun (process_image_edit subOk pollsNetError fetchAlways) ∧
    (process_image_edit subOk (pollsReadyAt 1) fetchNever).outcome =
      (process_image_edit subOk pollsNetError fetchAlways).outcome ∧
    (process_image_edit subOk (pollsReadyAt 1) fetchNever).outcome = .networkError ∧
    Outcome.networkError ≠ .noPollingUrl ∧
    Outcome.networkError ≠ .noResultUrl ∧
    Outcome.networkError ≠ .timedOut ∧
    ∀ s, Outcome.networkError ≠ .remoteFailed s :=
  ⟨⟨by decide, by decide⟩, ⟨by decide, by decide, by decide⟩, by decide, by decide,
   by decide, by decide, by decide, fun s => by simp⟩

/-- Claim C9: the estimator is total — for positive height it returns
one of the eleven enumerated labels; a square image yields "1:1"; and a
zero height falls back to "1:1" instead of crashing. -/
theorem C9_theorem :
    (∀ w h, 0 < h → get_aspect_ratio w h ∈ ratioLabels) ∧
    (∀ w, get_aspect_ratio w w = "1:1") ∧
    (∀ w, get_aspect_ratio w 0 = "1:1") := by
  refine ⟨?_, ?_, ?_⟩
  · intro w h hh
    have hgpos : 0 < Nat.gcd w h := Nat.gcd_pos_of_pos_right w hh
    have hhpos : 0 < h / Nat.gcd w h :=
      Nat.div_pos (Nat.le_of_dvd hh (Nat.gcd_dvd_right w h)) hgpos
    simp only [get_aspect_ratio, pyGcd_eq_gcd]
    rw [if_neg (by omega), if_neg (by omega)]
    exact closestRatio_mem _
  · intro w
    rcases Nat.eq_zero_or_pos w with hw | hw
    · subst hw; simp [get_aspect_ratio, pyGcd_eq_gcd]
    · have hg : Nat.gcd w w = w := Nat.gcd_self w
      have hd : w / w = 1 := Nat.div_self hw
      simp only [get_aspect_ratio, pyGcd_eq_gcd, hg, hd]
      rw [if_neg (by omega), if_neg (by omega),
        show ((1 : Nat) : ℚ) / ((1 : Nat) : ℚ) = 1 by norm_num, closestRatio_one]
  · intro w
    rcases Nat.eq_zero_or_pos w with hw | hw
    · subst hw; simp [get_aspect_ratio, pyGcd_eq_gcd]
    · simp only [get_aspect_ratio, pyGcd_eq_gcd, Nat.gcd_zero_right, Nat.zero_div]
      rw [if_neg (by omega), if_pos trivial]

/-- Witness for C9 at concrete dimensions. -/
theorem C9_witness :
    0 < 3 ∧ get_aspect_ratio 5 3 ∈ ratioLabels ∧
    get_aspect_ratio 7 7 = "1:1" ∧ get_aspect_ratio 4 0 = "1:1" :=
  ⟨by decide, C9_theorem.1 5 3 (by decide), C9_theorem.2.1 7, C9_theorem.2.2 4⟩

/-- Claim C10: responses whose status is none of Ready, Error, Failed,
Pending (including an absent status field) are consumed silently: the
loop continues, no progress notification is ever sent for them, and 60
such responses end in the timeout outcome. -/
theorem C10_theorem (subD : SubmissionData) (polls : Nat → PollResult)
    (fetch : String → Bool) (hsub : isTruthy subD.polling_url = true)
    (hp : ∀ n, 1 ≤ n → n ≤ 60 → ∃ d, polls n = .ok d ∧
      d.status ≠ some "Ready" ∧ d.status ≠ some "Error" ∧
      d.status ≠ some "Failed" ∧ d.status ≠ some "Pending") :
    (process_image_edit (.ok subD) polls fetch).outcome = .timedOut ∧
    (process_image_edit (.ok subD) polls fetch).progress = [] ∧
    (process_image_edit (.ok subD) polls fetch).numPolls = 60 := by
  rw [process_truthy subD polls fetch hsub,
    pollLoop_unknown_run polls fetch 60 0 (fun i h1 h2 => hp i (by omega) (by omega))]
  exact ⟨rfl, rfl, rfl⟩

/-- Witness for C10: every response lacks the status field. -/
theorem C10_witness :
    isTruthy subOkData.polling_url = true ∧
    ((process_image_edit (.ok subOkData) pollsNoStatus fetchAlways).outcome = .timedOut ∧
     (process_image_edit (.ok subOkData) pollsNoStatus fetchAlways).progress = [] ∧
     (process_image_edit (.ok subOkData) pollsNoStatus fetchAlways).numPolls = 60) :=
  ⟨rfl, C10_theorem subOkData pollsNoStatus fetchAlways rfl
    (fun n h1 h2 => ⟨⟨none, none, none⟩, rfl, by decide, by decide, by decide, by decide⟩)⟩

end Bot
